import Mathlib

/-!
Shallow embedding of the solar-geometry / shadow ray-tracing engine of the
terrassie-rn repository (src/utils/sunCalculations.js) together with the
building-cache logic of the analysis session controller (SunlightProvider).

External libraries (turf geodesic primitives, SunCalc) are not part of the
repository; their calls are abstracted as oracle parameters (`Turf`,
`getTimes`), while everything computed by the repository's own code is
translated directly.  JavaScript numbers are modelled by real numbers; the
JavaScript truthiness used in `a || b` defaulting and the exception behaviour
of `turf.point(null)` / `turf.polygon(badRings)` are modelled explicitly.
-/

open Real

/-- A geographic point, a (longitude, latitude) pair. -/
abbrev Pt : Type := ℝ × ℝ

/-- JavaScript `a || b` on an optional numeric property: yields `b` when `a`
is absent or equal to `0` (falsy), otherwise the value of `a`. -/
noncomputable def jsOrNum (a : Option ℝ) (b : ℝ) : ℝ :=
  match a with
  | none => b
  | some v => if v = 0 then b else v

/-- The `properties` object of a building feature, with the two height
attributes read by the shadow checker. -/
structure FeatProps where
  height : Option ℝ
  render_height : Option ℝ

/-- GeoJSON geometry as far as the shadow checker distinguishes it. -/
inductive Geom where
  | polygon (rings : List (List Pt))
  | multiPolygon (polys : List (List (List Pt)))
  | otherGeom

/-- A building feature: optional `properties` object and optional geometry. -/
structure Feature where
  properties : Option FeatProps
  geometry : Option Geom

/-- `props.height || props.render_height || 0` with `props = feat.properties || {}`. -/
noncomputable def resolvedHeight (f : Feature) : ℝ :=
  let props := f.properties.getD ⟨none, none⟩
  jsOrNum props.height (jsOrNum props.render_height 0)

/-- The `!feat.geometry.coordinates.length` emptiness test of the source
(`otherGeom` stands for geometry types whose coordinate array is non-empty;
they are skipped at the type dispatch anyway). -/
def geomCoordsEmpty : Geom → Bool
  | .polygon rings => rings.isEmpty
  | .multiPolygon polys => polys.isEmpty
  | .otherGeom => false

/-- `turf.polygon` accepts a linear ring iff it has at least 4 positions and
its last position equals its first; otherwise it throws. -/
def ringOk (r : List Pt) : Prop := 4 ≤ r.length ∧ r.getLast? = r.head?

noncomputable instance (r : List Pt) : Decidable (ringOk r) := by
  unfold ringOk; infer_instance

/-- `turf.polygon(rings)` validates every ring before constructing the polygon. -/
def polyRingsOk (rings : List (List Pt)) : Prop := ∀ r ∈ rings, ringOk r

noncomputable instance (rings : List (List Pt)) : Decidable (polyRingsOk rings) := by
  unfold polyRingsOk; infer_instance

/-- Oracle for the turf geodesic primitives used by the engine.
`lineIntersectBoundary line rings` stands for
`turf.lineIntersect(line, turf.polygonToLine(turf.polygon(rings)))`. -/
structure Turf where
  destination : Pt → ℝ → ℝ → Pt
  booleanIntersects : Pt × Pt → List (List Pt) → Bool
  lineIntersectBoundary : Pt × Pt → List (List Pt) → List Pt
  distanceMeters : Pt → Pt → ℝ

/-- JavaScript `Math.trunc`-style rounding toward zero, as used by the
`%` remainder operator. -/
noncomputable def jsTrunc (x : ℝ) : ℤ := if 0 ≤ x then ⌊x⌋ else ⌈x⌉

/-- JavaScript `x % y` (truncated-division remainder). -/
noncomputable def jsMod (x y : ℝ) : ℝ := x - y * jsTrunc (x / y)

/-- `calculate3DDestinationPoint(startPoint, distance, azimuthDegrees,
altitudeDegrees)`: splits the distance into horizontal and vertical parts,
inverts the azimuth (`(azimuthDegrees + 180) % 360`), applies
`turf.destination` horizontally and returns the destination together with the
elevation in meters. -/
noncomputable def calculate3DDestinationPoint (T : Turf) (startPoint : Pt)
    (distance azimuthDegrees altitudeDegrees : ℝ) : Pt × ℝ :=
  let altitudeRadians := altitudeDegrees * π / 180
  let horizontalDistance := distance * Real.cos altitudeRadians
  let verticalDistance := distance * Real.sin altitudeRadians
  let inverseBearing := jsMod (azimuthDegrees + 180) 360
  let dest := T.destination startPoint horizontalDistance inverseBearing
  (dest, verticalDistance * 1000)

/-- JavaScript `Math.atan2 y x`. -/
noncomputable def jsAtan2 (y x : ℝ) : ℝ := Complex.arg ⟨x, y⟩

/-- One extruded segment of the visualized 3D ray.  `base`, `height` and
`segment` are the feature's `properties`; `coords` is its polygon ring;
the interpolated segment endpoints (`lng1` … `lat2`) are the intermediate
values of the source loop, recorded for specification purposes. -/
structure RaySegment where
  base : ℝ
  height : ℝ
  segment : ℕ
  lng1 : ℝ
  lat1 : ℝ
  lng2 : ℝ
  lat2 : ℝ
  coords : List Pt

/-- Body of the `createRay3DSegments` loop at index `i`. -/
noncomputable def mkRaySegment (start endP : Pt) (startElevation endElevation : ℝ)
    (segments : ℕ) (i : ℕ) : RaySegment :=
  let t1 : ℝ := (i : ℝ) / (segments : ℝ)
  let t2 : ℝ := ((i : ℝ) + 1) / (segments : ℝ)
  let lng1 := start.1 + (endP.1 - start.1) * t1
  let lat1 := start.2 + (endP.2 - start.2) * t1
  let elev1 := startElevation + (endElevation - startElevation) * t1
  let lng2 := start.1 + (endP.1 - start.1) * t2
  let lat2 := start.2 + (endP.2 - start.2) * t2
  let elev2 := startElevation + (endElevation - startElevation) * t2
  let angle := jsAtan2 (lat2 - lat1) (lng2 - lng1)
  let perpAngle := angle + π / 2
  let widthMeters : ℝ := 0.2
  let widthDegrees := widthMeters / (111320 * Real.cos (lat1 * π / 180))
  let dx := widthDegrees * Real.cos perpAngle / 2
  let dy := widthDegrees * Real.sin perpAngle / 2
  { base := elev1, height := elev2, segment := i,
    lng1 := lng1, lat1 := lat1, lng2 := lng2, lat2 := lat2,
    coords := [(lng1 - dx, lat1 - dy), (lng1 + dx, lat1 + dy),
               (lng2 + dx, lat2 + dy), (lng2 - dx, lat2 - dy),
               (lng1 - dx, lat1 - dy)] }

/-- `createRay3DSegments(start, end, startElevation, endElevation, segments = 20)`. -/
noncomputable def createRay3DSegments (start endP : Pt)
    (startElevation endElevation : ℝ) (segments : ℕ := 20) : List RaySegment :=
  (List.range segments).map (mkRaySegment start endP startElevation endElevation segments)

/-- Mutable loop state of the shadow-checking loop: `minDistance = none`
models the initial `Infinity`. -/
structure ShadowState where
  inShadow : Bool
  blocker : Option Feature
  closestIntersection : Option Pt
  minDistance : Option ℝ
  intersectionHeight : ℝ

/-- Initial loop state. -/
def initState : ShadowState :=
  { inShadow := false, blocker := none, closestIntersection := none,
    minDistance := none, intersectionHeight := 0 }

/-- `dist < minDistance` where `minDistance` may still be `Infinity`. -/
def ltMin (d : ℝ) : Option ℝ → Prop
  | none => True
  | some m => d < m

noncomputable instance (d : ℝ) : (m : Option ℝ) → Decidable (ltMin d m)
  | none => .isTrue trivial
  | some m => inferInstanceAs (Decidable (d < m))

/-- Inner loop over the intersection points of the ray with one polygon. -/
noncomputable def processIpts (T : Turf) (origin : Pt) (sunAltitudeDeg hgt : ℝ)
    (feat : Feature) (st : ShadowState) : List Pt → ShadowState
  | [] => st
  | ipt :: rest =>
    let dist := T.distanceMeters origin ipt
    let rayHeight := dist * Real.tan (sunAltitudeDeg * π / 180)
    let st2 := if hgt > rayHeight ∧ ltMin dist st.minDistance then
        { inShadow := true, blocker := some feat, closestIntersection := some ipt,
          minDistance := some dist, intersectionHeight := rayHeight }
      else st
    processIpts T origin sunAltitudeDeg hgt feat st2 rest

/-- Loop over the simple polygons of one feature.  An invalid ring set makes
`turf.polygon` throw; the per-feature `catch` then abandons the remaining
polygons of this feature, keeping the state accumulated so far. -/
noncomputable def processPolys (T : Turf) (origin : Pt) (rayLine : Pt × Pt)
    (sunAltitudeDeg hgt : ℝ) (feat : Feature) (st : ShadowState) :
    List (List (List Pt)) → ShadowState
  | [] => st
  | rings :: rest =>
    if polyRingsOk rings then
      let st2 := if T.booleanIntersects rayLine rings then
          processIpts T origin sunAltitudeDeg hgt feat st
            (T.lineIntersectBoundary rayLine rings)
        else st
      processPolys T origin rayLine sunAltitudeDeg hgt feat st2 rest
    else st

/-- Per-feature body of the shadow-checking loop: height resolution and
gate, geometry checks, geometry-type dispatch. -/
noncomputable def processFeature (T : Turf) (origin : Pt) (rayLine : Pt × Pt)
    (sunAltitudeDeg : ℝ) (st : ShadowState) (feat : Feature) : ShadowState :=
  let hgt := resolvedHeight feat
  if hgt ≤ 0 then st
  else
    match feat.geometry with
    | none => st
    | some g =>
      if geomCoordsEmpty g then st
      else
        match g with
        | .polygon rings => processPolys T origin rayLine sunAltitudeDeg hgt feat st [rings]
        | .multiPolygon polys => processPolys T origin rayLine sunAltitudeDeg hgt feat st polys
        | .otherGeom => st

/-- Result object of `checkShadowWith3DRay`.  `rayEnd = none` models an
absent `rayEnd` key (the night-time return object has no such key). -/
structure ShadowResult where
  isInShadow : Bool
  blockerFeature : Option Feature
  intersectionPoint : Option Pt
  raySegments : Option (List RaySegment)
  rayEnd : Option Pt

/-- The `sunAltitudeDeg <= 0` early return. -/
def nightResult : ShadowResult :=
  { isInShadow := true, blockerFeature := none, intersectionPoint := none,
    raySegments := none, rayEnd := none }

/-- The "no buildings to check" branch: a default 0.5 km 3D ray.  With a
missing origin point the `turf` destination call throws (`.error ()`). -/
noncomputable def emptyFeaturesResult (T : Turf) (selectedPoint : Option Pt)
    (bearing sunAltitudeDeg : ℝ) : Except Unit ShadowResult :=
  match selectedPoint with
  | none => .error ()
  | some pt =>
    let rayEnd := calculate3DDestinationPoint T pt 0.5 bearing sunAltitudeDeg
    .ok { isInShadow := false, blockerFeature := none, intersectionPoint := none,
          raySegments := some (createRay3DSegments pt rayEnd.1 0 rayEnd.2 20),
          rayEnd := some rayEnd.1 }

/-- One iteration of the `for` loop over `featureArray`
(`if (!feat) continue` for null entries). -/
noncomputable def shadowLoopBody (T : Turf) (origin : Pt) (rayLine : Pt × Pt)
    (sunAltitudeDeg : ℝ) (st : ShadowState) : Option Feature → ShadowState
  | none => st
  | some f => processFeature T origin rayLine sunAltitudeDeg st f

/-- Body of `checkShadowWith3DRay` after its two early returns: the 1 km
3D ray, the loop over the features, and the assembly of the result. -/
noncomputable def mainShadowResult (T : Turf) (pt : Pt)
    (bearing sunAltitudeDeg : ℝ) (l : List (Option Feature)) : ShadowResult :=
  let rayEnd := calculate3DDestinationPoint T pt 1 bearing sunAltitudeDeg
  let rayLine := (pt, rayEnd.1)
  let st := l.foldl (shadowLoopBody T pt rayLine sunAltitudeDeg) initState
  let raySegments :=
    match st.inShadow, st.closestIntersection with
    | true, some ci => createRay3DSegments pt ci 0 st.intersectionHeight 20
    | _, _ => createRay3DSegments pt rayEnd.1 0 rayEnd.2 20
  { isInShadow := st.inShadow, blockerFeature := st.blocker,
    intersectionPoint := st.closestIntersection,
    raySegments := some raySegments,
    rayEnd := if st.inShadow then st.closestIntersection else some rayEnd.1 }

/-- `checkShadowWith3DRay(selectedPoint, bearing, sunAltitudeDeg, features)`.
`features = none` models a null/undefined features argument; a `none` entry
models a null element (skipped by `if (!feat) continue`).  A thrown
exception that escapes the function (from `turf.point(null)` or the
destination call on a missing point) is modelled as `.error ()`. -/
noncomputable def checkShadowWith3DRay (T : Turf) (selectedPoint : Option Pt)
    (bearing sunAltitudeDeg : ℝ) (features : Option (List (Option Feature))) :
    Except Unit ShadowResult :=
  if sunAltitudeDeg ≤ 0 then .ok nightResult
  else
    match features with
    | none => emptyFeaturesResult T selectedPoint bearing sunAltitudeDeg
    | some l =>
      if l.isEmpty then emptyFeaturesResult T selectedPoint bearing sunAltitudeDeg
      else
        match selectedPoint with
        | none => .error ()
        | some pt => .ok (mainShadowResult T pt bearing sunAltitudeDeg l)

/-- A JavaScript `Date`: invalid dates (as produced by SunCalc at polar
day/night) have `valid = false`, and their `getHours()` / `getMinutes()`
return NaN. -/
structure JsDate where
  valid : Bool
  hours : ℤ
  minutes : ℤ

/-- `d.getHours()` as a JavaScript number; `none` models NaN. -/
noncomputable def jsGetHours (d : JsDate) : Option ℝ :=
  if d.valid then some (d.hours : ℝ) else none

/-- `d.getMinutes()` as a JavaScript number; `none` models NaN. -/
noncomputable def jsGetMinutes (d : JsDate) : Option ℝ :=
  if d.valid then some (d.minutes : ℝ) else none

/-- NaN-propagating arithmetic on JavaScript numbers. -/
noncomputable def jsNumMap2 (f : ℝ → ℝ → ℝ) : Option ℝ → Option ℝ → Option ℝ
  | some a, some b => some (f a b)
  | _, _ => none

/-- `t.getHours() + t.getMinutes() / 60`. -/
noncomputable def jsHourDecimal (d : JsDate) : Option ℝ :=
  jsNumMap2 (fun h m => h + m / 60) (jsGetHours d) (jsGetMinutes d)

/-- The object returned by `SunCalc.getTimes` as far as this code reads it. -/
structure SunTimes where
  sunrise : JsDate
  sunset : JsDate

/-- Return object of `calculateSunriseSunset`; the hour fields may be NaN. -/
structure SunriseSunsetResult where
  sunriseTime : JsDate
  sunsetTime : JsDate
  sunriseHour : Option ℝ
  sunsetHour : Option ℝ

/-- `calculateSunriseSunset(date, coordinates)`.  The external
`SunCalc.getTimes` call (on the noon-normalized target date) is abstracted
as the oracle `getTimes latitude longitude`. -/
noncomputable def calculateSunriseSunset (getTimes : ℝ → ℝ → SunTimes)
    (coordinates : Option Pt) : Option SunriseSunsetResult :=
  match coordinates with
  | none => none
  | some c =>
    let times := getTimes c.2 c.1
    some { sunriseTime := times.sunrise, sunsetTime := times.sunset,
           sunriseHour := jsHourDecimal times.sunrise,
           sunsetHour := jsHourDecimal times.sunset }

/-- The building-cache state of the `SunlightProvider` session controller. -/
structure SessionState where
  cachedBuildings : Option (List (Option Feature))
  cachedBuildingPoint : Option Pt

/-- `shouldFetchBuildings = !cachedBuildingPoint || !selectedPoint ||
turf.distance(cachedBuildingPoint, selectedPoint, meters) > 10`. -/
noncomputable def shouldFetchBuildings (dist : Pt → Pt → ℝ)
    (cachedBuildingPoint selectedPoint : Option Pt) : Bool :=
  match cachedBuildingPoint, selectedPoint with
  | none, _ => true
  | _, none => true
  | some c, some s => decide (dist c s > 10)

/-- Outcome of one `checkSunlightForPoint` invocation: the updated cache
state, how many footprint fetches (`getMapFeaturesAround` calls) the
invocation performed, the feature list actually passed to the shadow
resolver, and the resolver's result (`none` when the early guard returned). -/
structure SunlightStep where
  session : SessionState
  fetches : ℕ
  usedFeatures : Option (List (Option Feature))
  shadow : Option (Except Unit ShadowResult)

/-- `checkSunlightForPoint(mapRef, skipAnalyzing)` of the SunlightProvider,
restricted to its cache/fetch/resolve logic.  `fetch` abstracts the external
`getMapFeaturesAround(mapRef, selectedPoint)` collaborator. -/
noncomputable def checkSunlightForPoint (T : Turf)
    (fetch : Option Pt → List (Option Feature))
    (bearingFromNorth sunAltitudeDeg : ℝ) (mapRefPresent : Bool)
    (selectedPoint : Option Pt) (skipAnalyzing : Bool)
    (s : SessionState) : SunlightStep :=
  if (¬mapRefPresent ∨ selectedPoint = none) ∧ ¬skipAnalyzing then
    { session := s, fetches := 0, usedFeatures := none, shadow := none }
  else
    if shouldFetchBuildings T.distanceMeters s.cachedBuildingPoint selectedPoint then
      let buildingFeatures := fetch selectedPoint
      let validFeatures := buildingFeatures
      { session := { cachedBuildings := some buildingFeatures,
                     cachedBuildingPoint := selectedPoint },
        fetches := 1,
        usedFeatures := some validFeatures,
        shadow := some (checkShadowWith3DRay T selectedPoint bearingFromNorth
          sunAltitudeDeg (some validFeatures)) }
    else
      let buildingFeatures := s.cachedBuildings
      let validFeatures := buildingFeatures.getD []
      { session := s, fetches := 0,
        usedFeatures := some validFeatures,
        shadow := some (checkShadowWith3DRay T selectedPoint bearingFromNorth
          sunAltitudeDeg (some validFeatures)) }

/-- The origin point used in concrete scenarios. -/
noncomputable def pt0 : Pt := (0, 0)

/-- A constant turf oracle: every polygon boundary meets the ray at the
single point (1,1), 10 meters from any origin. -/
noncomputable def T0 : Turf :=
  { destination := fun p _ _ => p,
    booleanIntersects := fun _ _ => true,
    lineIntersectBoundary := fun _ _ => [(1, 1)],
    distanceMeters := fun _ _ => 10 }

/-- A valid closed 4-point triangle ring. -/
noncomputable def goodRings : List (List Pt) := [[(0, 0), (3, 0), (0, 3), (0, 0)]]

/-- Another valid closed 4-point triangle ring. -/
noncomputable def goodRings2 : List (List Pt) := [[(0, 0), (2, 0), (0, 2), (0, 0)]]

/-- A malformed ring: only 2 positions (and not closed). -/
noncomputable def badRings : List (List Pt) := [[(5, 5), (6, 6)]]

/-- A 20 m tall building with a valid Polygon footprint. -/
noncomputable def fTall : Feature :=
  { properties := some { height := some 20, render_height := none },
    geometry := some (.polygon goodRings) }

/-- A 5 m building with a valid Polygon footprint (too low to block a
45-degree ray at 10 m). -/
noncomputable def fGood : Feature :=
  { properties := some { height := some 5, render_height := none },
    geometry := some (.polygon goodRings2) }

/-- A 20 m building whose MultiPolygon geometry has a valid blocking
sub-polygon followed by a malformed ring. -/
noncomputable def fBadMP : Feature :=
  { properties := some { height := some 20, render_height := none },
    geometry := some (.multiPolygon [goodRings, badRings]) }

/-- A building whose Polygon geometry consists of a single malformed ring. -/
noncomputable def fBadPoly : Feature :=
  { properties := some { height := some 20, render_height := none },
    geometry := some (.polygon badRings) }

/-- A flat-plane instantiation of the destination oracle: move `dist` in
compass direction `brg` (north = +lat, clockwise). -/
noncomputable def Tflat : Turf :=
  { destination := fun p dist brg =>
      (p.1 + dist * Real.sin (brg * π / 180), p.2 + dist * Real.cos (brg * π / 180)),
    booleanIntersects := fun _ _ => true,
    lineIntersectBoundary := fun _ _ => [(1, 1)],
    distanceMeters := fun _ _ => 10 }

/-- An oracle whose intersection point is the first vertex of the polygon
and whose distance is that point's first coordinate. -/
noncomputable def T2 : Turf :=
  { destination := fun p _ _ => p,
    booleanIntersects := fun _ _ => true,
    lineIntersectBoundary := fun _ rings => [rings.headI.headI],
    distanceMeters := fun _ q => q.1 }

/-- A valid ring whose first vertex is (10, 1). -/
noncomputable def ringsA : List (List Pt) := [[(10, 1), (12, 0), (10, 3), (10, 1)]]

/-- A valid ring whose first vertex is (20, 2). -/
noncomputable def ringsB : List (List Pt) := [[(20, 2), (22, 0), (20, 4), (20, 2)]]

/-- A 100 m building on ring A. -/
noncomputable def fT1 : Feature :=
  { properties := some { height := some 100, render_height := none },
    geometry := some (.polygon ringsA) }

/-- A 100 m building on ring B. -/
noncomputable def fT2 : Feature :=
  { properties := some { height := some 100, render_height := none },
    geometry := some (.polygon ringsB) }

/-- A feature with explicit height 0 and render_height 7. -/
noncomputable def fZeroH : Feature :=
  { properties := some { height := some 0, render_height := some 7 },
    geometry := some (.polygon goodRings) }

/-- A feature with explicit height 0 and no render_height. -/
noncomputable def fZeroZero : Feature :=
  { properties := some { height := some 0, render_height := none },
    geometry := some (.polygon goodRings) }

/-- The sun-window state kept by the provider (initial defaults 6 and 18);
`none` models an NaN hour value. -/
structure SunWindowState where
  sunriseHour : Option ℝ
  sunsetHour : Option ℝ

/-- The provider's initial window: 6:00 to 18:00. -/
noncomputable def initialSunWindow : SunWindowState :=
  { sunriseHour := some 6, sunsetHour := some 18 }

/-- `calculateSunriseSunsetTimes` of the SunlightProvider: early return when
no point is selected or the result is null, otherwise store the hours. -/
noncomputable def calculateSunriseSunsetTimes (getTimes : ℝ → ℝ → SunTimes)
    (selectedPoint : Option Pt) (s : SunWindowState) : SunWindowState :=
  match selectedPoint with
  | none => s
  | some p =>
    match calculateSunriseSunset getTimes (some p) with
    | none => s
    | some r => { sunriseHour := r.sunriseHour, sunsetHour := r.sunsetHour }

/-- `SunCalc.getTimes` during polar day/night: sunrise and sunset are
Invalid Date objects. -/
def getTimesPolar : ℝ → ℝ → SunTimes := fun _ _ =>
  { sunrise := { valid := false, hours := 0, minutes := 0 },
    sunset := { valid := false, hours := 0, minutes := 0 } }

/-- A footprint provider returning no buildings. -/
def fetchNone : Option Pt → List (Option Feature) := fun _ => []

/-! ### Concrete fixtures used by witnesses and counterexamples -/

/-! ### Arithmetic and fixture evaluation lemmas -/

lemma tan_45deg : Real.tan ((45 : ℝ) * π / 180) = 1 := by
  rw [show (45 : ℝ) * π / 180 = π / 4 by ring]
  exact Real.tan_pi_div_four

lemma tan_deg_pos {alt : ℝ} (h0 : 0 < alt) (h90 : alt < 90) :
    0 < Real.tan (alt * π / 180) := by
  apply Real.tan_pos_of_pos_of_lt_pi_div_two
  · positivity
  · rw [show alt * π / 180 = alt * (π / 180) by ring,
        show π / 2 = 90 * (π / 180) by ring]
    exact mul_lt_mul_of_pos_right h90 (by positivity)

lemma polyRingsOk_goodRings : polyRingsOk goodRings := by
  intro r hr
  simp only [goodRings, List.mem_singleton] at hr
  subst hr
  exact ⟨by simp, rfl⟩

lemma polyRingsOk_goodRings2 : polyRingsOk goodRings2 := by
  intro r hr
  simp only [goodRings2, List.mem_singleton] at hr
  subst hr
  exact ⟨by simp, rfl⟩

lemma not_polyRingsOk_badRings : ¬ polyRingsOk badRings := by
  intro h
  have h2 := h [(5, 5), (6, 6)] (by simp [badRings])
  simp only [ringOk, List.length_cons, List.length_nil] at h2
  omega

lemma resolvedHeight_fTall : resolvedHeight fTall = 20 := by
  norm_num [resolvedHeight, fTall, jsOrNum]

lemma resolvedHeight_fGood : resolvedHeight fGood = 5 := by
  norm_num [resolvedHeight, fGood, jsOrNum]

lemma resolvedHeight_fBadMP : resolvedHeight fBadMP = 20 := by
  norm_num [resolvedHeight, fBadMP, jsOrNum]

lemma jsMod_180_360 : jsMod ((0 : ℝ) + 180) 360 = 180 := by
  have hfl : ⌊(180 / 360 : ℝ)⌋ = 0 := by
    rw [Int.floor_eq_zero_iff]
    constructor <;> norm_num
  unfold jsMod jsTrunc
  rw [if_pos (by norm_num : (0:ℝ) ≤ (0 + 180) / 360)]
  rw [show ((0:ℝ) + 180) / 360 = 180 / 360 by norm_num, hfl]
  norm_num

/-! ### Claims -/

/-- C3: for every oracle, origin (present or missing), bearing and footprint
collection, if the sun altitude is ≤ 0 then `checkShadowWith3DRay` returns
exactly `{isInShadow: true, blockerFeature: null, intersectionPoint: null,
raySegments: null}` (and no `rayEnd` key), without examining any footprint. -/
theorem C3_night_full_shadow (T : Turf) (sp : Option Pt) (bearing alt : ℝ)
    (fs : Option (List (Option Feature))) (h : alt ≤ 0) :
    checkShadowWith3DRay T sp bearing alt fs =
      .ok { isInShadow := true, blockerFeature := none, intersectionPoint := none,
            raySegments := none, rayEnd := none } := by
  unfold checkShadowWith3DRay
  rw [if_pos h]
  rfl

/-- Witness for C3: altitude −5°, missing point, non-empty footprint list. -/
theorem C3_night_full_shadow_witness :
    (-5 : ℝ) ≤ 0 ∧
    checkShadowWith3DRay T0 none 180 (-5) (some [some fTall]) =
      .ok { isInShadow := true, blockerFeature := none, intersectionPoint := none,
            raySegments := none, rayEnd := none } :=
  ⟨by norm_num, C3_night_full_shadow T0 none 180 (-5) (some [some fTall]) (by norm_num)⟩

/-- C6 counterexample: with a missing origin point, altitude 45° > 0, the
function propagates the turf exception (modelled `.error ()`) instead of
returning the claimed safe neutral `{isInShadow: false}` result — both with
a non-empty footprint collection and with a null one. -/
theorem C6_counterexample :
    checkShadowWith3DRay T0 none 180 45 (some [some fTall]) = .error () ∧
    checkShadowWith3DRay T0 none 180 45 none = .error () := by
  constructor <;>
    · unfold checkShadowWith3DRay emptyFeaturesResult
      rw [if_neg (by norm_num : ¬ (45:ℝ) ≤ 0)]
      try rfl

/-- C6 (amended): `checkShadowWith3DRay` does not short-circuit on a missing
origin point: for every altitude > 0 and every footprint collection it
throws (the `turf.point`/destination call on the null point), modelled as
`.error ()`; the exception is caught only by the caller
(`checkSunlightForPoint`'s try/catch).  The only point-independent safe
return is the altitude ≤ 0 night result. -/
theorem C6_missing_point_throws (T : Turf) (bearing alt : ℝ)
    (fs : Option (List (Option Feature))) (h : 0 < alt) :
    checkShadowWith3DRay T none bearing alt fs = .error () := by
  unfold checkShadowWith3DRay
  rw [if_neg (not_le.mpr h)]
  cases fs with
  | none => rfl
  | some l => cases l with
    | nil => rfl
    | cons a t => rfl

/-- Witness for C6 (amended) at altitude 45°, empty footprint list. -/
theorem C6_missing_point_throws_witness :
    (0:ℝ) < 45 ∧ checkShadowWith3DRay T0 none 180 45 (some []) = .error () :=
  ⟨by norm_num, C6_missing_point_throws T0 180 45 (some []) (by norm_num)⟩

/-- C5 counterexample: at origin (0,0), distance 1, bearing 0, altitude 0,
the returned position is not the destination along bearing 0 at distance
`1 * cos 0`; the code inverts the azimuth before applying `destination`. -/
theorem C5_counterexample :
    (calculate3DDestinationPoint Tflat (0, 0) 1 0 0).1 ≠
      Tflat.destination (0, 0) (1 * Real.cos ((0 : ℝ) * π / 180)) 0 := by
  intro h
  have h2 := congrArg Prod.snd h
  unfold calculate3DDestinationPoint Tflat at h2
  simp only [jsMod_180_360] at h2
  rw [show (180:ℝ) * π / 180 = π by ring, Real.cos_pi,
      show (0:ℝ) * π / 180 = 0 by ring, Real.cos_zero] at h2
  norm_num at h2

/-- C5 (amended): `calculate3DDestinationPoint` returns the destination of
the origin at horizontal distance `d * cos(a)` along the *inverted* bearing
`(b + 180) % 360` (not along `b`), with elevation `d * sin(a) * 1000`
meters; at altitude 90° the horizontal distance is 0 and at altitude 0° the
elevation is 0. -/
theorem C5_amended (T : Turf) (p : Pt) (d b a : ℝ) :
    calculate3DDestinationPoint T p d b a =
      (T.destination p (d * Real.cos (a * π / 180)) (jsMod (b + 180) 360),
        d * Real.sin (a * π / 180) * 1000) ∧
    calculate3DDestinationPoint T p d b 90 =
      (T.destination p 0 (jsMod (b + 180) 360), d * 1000) ∧
    (calculate3DDestinationPoint T p d b 0).2 = 0 := by
  refine ⟨rfl, ?_, ?_⟩
  · unfold calculate3DDestinationPoint
    rw [show (90:ℝ) * π / 180 = π / 2 by ring]
    simp [Real.cos_pi_div_two, Real.sin_pi_div_two]
  · unfold calculate3DDestinationPoint
    rw [show (0:ℝ) * π / 180 = 0 by ring]
    simp

lemma range20_eq : List.range 20 =
    [0, 1, 2, 3, 4, 5, 6, 7, 8, 9, 10, 11, 12, 13, 14, 15, 16, 17, 18, 19] := by
  rfl

lemma createRay3DSegments_length (s e : Pt) (sE eE : ℝ) (n : ℕ) :
    (createRay3DSegments s e sE eE n).length = n := by
  simp [createRay3DSegments]

lemma createRay3DSegments_head20 (s e : Pt) (sE eE : ℝ) :
    (createRay3DSegments s e sE eE 20).head? = some (mkRaySegment s e sE eE 20 0) := by
  unfold createRay3DSegments
  rw [range20_eq]
  rfl

lemma createRay3DSegments_last20 (s e : Pt) (sE eE : ℝ) :
    (createRay3DSegments s e sE eE 20).getLast? = some (mkRaySegment s e sE eE 20 19) := by
  unfold createRay3DSegments
  rw [range20_eq]
  rfl

lemma mkRaySegment_seg0 (s e : Pt) (sE eE : ℝ) (n : ℕ) :
    (mkRaySegment s e sE eE n 0).lng1 = s.1 ∧
    (mkRaySegment s e sE eE n 0).lat1 = s.2 ∧
    (mkRaySegment s e sE eE n 0).base = sE := by
  unfold mkRaySegment
  norm_num

lemma mkRaySegment_seg19 (s e : Pt) (sE eE : ℝ) :
    (mkRaySegment s e sE eE 20 19).lng2 = e.1 ∧
    (mkRaySegment s e sE eE 20 19).lat2 = e.2 ∧
    (mkRaySegment s e sE eE 20 19).height = eE := by
  unfold mkRaySegment
  norm_num

/-- C4: with sun altitude > 0 and an absent or empty footprint collection,
the result is sunlit (`isInShadow = false`, null blocker and intersection)
and the ray is exactly 20 segments running from the origin (elevation 0) to
the 3D destination of the default 0.5 km ray. -/
theorem C4_empty_features (T : Turf) (pt : Pt) (bearing alt : ℝ)
    (fs : Option (List (Option Feature))) (halt : 0 < alt)
    (hfs : fs = none ∨ fs = some []) :
    ∃ segs s0 sl,
      checkShadowWith3DRay T (some pt) bearing alt fs =
        .ok { isInShadow := false, blockerFeature := none, intersectionPoint := none,
              raySegments := some segs,
              rayEnd := some (calculate3DDestinationPoint T pt 0.5 bearing alt).1 } ∧
      segs.length = 20 ∧
      segs.head? = some s0 ∧ s0.lng1 = pt.1 ∧ s0.lat1 = pt.2 ∧ s0.base = 0 ∧
      segs.getLast? = some sl ∧
      sl.lng2 = (calculate3DDestinationPoint T pt 0.5 bearing alt).1.1 ∧
      sl.lat2 = (calculate3DDestinationPoint T pt 0.5 bearing alt).1.2 ∧
      sl.height = (calculate3DDestinationPoint T pt 0.5 bearing alt).2 := by
  have hmain : checkShadowWith3DRay T (some pt) bearing alt fs =
      emptyFeaturesResult T (some pt) bearing alt := by
    unfold checkShadowWith3DRay
    rw [if_neg (not_le.mpr halt)]
    rcases hfs with h | h <;> subst h <;> rfl
  rw [hmain]
  unfold emptyFeaturesResult
  refine ⟨_, _, _, rfl, createRay3DSegments_length _ _ _ _ _,
    createRay3DSegments_head20 _ _ _ _,
    (mkRaySegment_seg0 _ _ _ _ _).1, (mkRaySegment_seg0 _ _ _ _ _).2.1,
    (mkRaySegment_seg0 _ _ _ _ _).2.2,
    createRay3DSegments_last20 _ _ _ _,
    (mkRaySegment_seg19 _ _ _ _).1, (mkRaySegment_seg19 _ _ _ _).2.1,
    (mkRaySegment_seg19 _ _ _ _).2.2⟩

/-- Witness for C4: the constant oracle, origin (0,0), bearing 180,
altitude 45°, absent footprint collection. -/
theorem C4_empty_features_witness :
    (0:ℝ) < 45 ∧
    ((none : Option (List (Option Feature))) = none ∨
      (none : Option (List (Option Feature))) = some []) ∧
    (∃ segs s0 sl,
      checkShadowWith3DRay T0 (some pt0) 180 45 none =
        .ok { isInShadow := false, blockerFeature := none, intersectionPoint := none,
              raySegments := some segs,
              rayEnd := some (calculate3DDestinationPoint T0 pt0 0.5 180 45).1 } ∧
      segs.length = 20 ∧
      segs.head? = some s0 ∧ s0.lng1 = pt0.1 ∧ s0.lat1 = pt0.2 ∧ s0.base = 0 ∧
      segs.getLast? = some sl ∧
      sl.lng2 = (calculate3DDestinationPoint T0 pt0 0.5 180 45).1.1 ∧
      sl.lat2 = (calculate3DDestinationPoint T0 pt0 0.5 180 45).1.2 ∧
      sl.height = (calculate3DDestinationPoint T0 pt0 0.5 180 45).2) :=
  ⟨by norm_num, Or.inl rfl,
    C4_empty_features T0 pt0 180 45 none (by norm_num) (Or.inl rfl)⟩

lemma checkShadow_pos_cons (T : Turf) (pt : Pt) (bearing alt : ℝ)
    (a : Option Feature) (l : List (Option Feature)) (halt : 0 < alt) :
    checkShadowWith3DRay T (some pt) bearing alt (some (a :: l)) =
      .ok (mainShadowResult T pt bearing alt (a :: l)) := by
  unfold checkShadowWith3DRay
  rw [if_neg (not_le.mpr halt)]
  rfl

lemma mainShadowResult_fields (T : Turf) (pt : Pt) (bearing alt : ℝ)
    (l : List (Option Feature)) :
    (mainShadowResult T pt bearing alt l).isInShadow =
      (l.foldl (shadowLoopBody T pt
        (pt, (calculate3DDestinationPoint T pt 1 bearing alt).1) alt) initState).inShadow ∧
    (mainShadowResult T pt bearing alt l).blockerFeature =
      (l.foldl (shadowLoopBody T pt
        (pt, (calculate3DDestinationPoint T pt 1 bearing alt).1) alt) initState).blocker ∧
    (mainShadowResult T pt bearing alt l).intersectionPoint =
      (l.foldl (shadowLoopBody T pt
        (pt, (calculate3DDestinationPoint T pt 1 bearing alt).1) alt) initState).closestIntersection := by
  exact ⟨rfl, rfl, rfl⟩

/-- A feature whose resolved height is ≤ 0 is skipped: the loop state is
unchanged, before any geometry or intersection test. -/
lemma processFeature_nonpos (T : Turf) (origin : Pt) (L : Pt × Pt) (alt : ℝ)
    (st : ShadowState) (f : Feature) (hh : resolvedHeight f ≤ 0) :
    processFeature T origin L alt st f = st := by
  unfold processFeature
  rw [if_pos hh]

/-- Evaluation of one feature with Polygon geometry whose boundary the ray
meets in exactly one point, under the oracle hypotheses. -/
lemma processFeature_polygon_single (T : Turf) (origin : Pt) (L : Pt × Pt)
    (alt : ℝ) (f : Feature) (rings : List (List Pt)) (p : Pt) (st : ShadowState)
    (hg : f.geometry = some (.polygon rings)) (hne : rings ≠ [])
    (hok : polyRingsOk rings)
    (hbi : T.booleanIntersects L rings = true)
    (hli : T.lineIntersectBoundary L rings = [p])
    (hh : 0 < resolvedHeight f) :
    processFeature T origin L alt st f =
      (if resolvedHeight f > T.distanceMeters origin p * Real.tan (alt * π / 180) ∧
          ltMin (T.distanceMeters origin p) st.minDistance then
        { inShadow := true, blocker := some f, closestIntersection := some p,
          minDistance := some (T.distanceMeters origin p),
          intersectionHeight := T.distanceMeters origin p * Real.tan (alt * π / 180) }
      else st) := by
  have hne2 : rings.isEmpty = false := by
    cases rings with
    | nil => exact absurd rfl hne
    | cons a t => rfl
  unfold processFeature
  rw [if_neg (not_le.mpr hh), hg]
  simp only [geomCoordsEmpty, hne2, Bool.false_eq_true, if_false]
  unfold processPolys
  rw [if_pos hok, hbi, hli]
  simp only [if_true]
  unfold processIpts
  rfl

lemma ltMin_init (d : ℝ) : ltMin d initState.minDistance := trivial

/-- C1: with sun altitude strictly between 0° and 90°, a single footprint
whose boundary the 2D ray meets at ground distance `d` blocks the sun iff
its height exceeds `d * tan(altitude)`; at height exactly equal to the
threshold it does not block, so raising the height from 0 flips the result
exactly past the threshold. -/
theorem C1_blocking_threshold (T : Turf) (pt p : Pt) (bearing alt d h : ℝ)
    (f : Feature) (rings : List (List Pt))
    (halt0 : 0 < alt) (halt90 : alt < 90)
    (hh : resolvedHeight f = h) (hh0 : 0 ≤ h)
    (hg : f.geometry = some (.polygon rings)) (hne : rings ≠ [])
    (hok : polyRingsOk rings)
    (hbi : T.booleanIntersects
      (pt, (calculate3DDestinationPoint T pt 1 bearing alt).1) rings = true)
    (hli : T.lineIntersectBoundary
      (pt, (calculate3DDestinationPoint T pt 1 bearing alt).1) rings = [p])
    (hd : T.distanceMeters pt p = d) (hd0 : 0 < d) :
    ∃ res, checkShadowWith3DRay T (some pt) bearing alt (some [some f]) = .ok res ∧
      (res.isInShadow = true ↔ h > d * Real.tan (alt * π / 180)) ∧
      (res.isInShadow = true →
        res.blockerFeature = some f ∧ res.intersectionPoint = some p) ∧
      (h = d * Real.tan (alt * π / 180) → res.isInShadow = false) := by
  have htan : 0 < d * Real.tan (alt * π / 180) :=
    mul_pos hd0 (tan_deg_pos halt0 halt90)
  refine ⟨_, checkShadow_pos_cons T pt bearing alt (some f) [] halt0, ?_⟩
  obtain ⟨e1, e2, e3⟩ := mainShadowResult_fields T pt bearing alt [some f]
  rw [e1, e2, e3]
  have hfold : [some f].foldl (shadowLoopBody T pt
      (pt, (calculate3DDestinationPoint T pt 1 bearing alt).1) alt) initState =
      processFeature T pt
        (pt, (calculate3DDestinationPoint T pt 1 bearing alt).1) alt initState f := rfl
  rw [hfold]
  rcases lt_or_eq_of_le hh0 with hpos | hzero
  · have hpf := processFeature_polygon_single T pt
      (pt, (calculate3DDestinationPoint T pt 1 bearing alt).1) alt f rings p initState
      hg hne hok hbi hli (by rw [hh]; exact hpos)
    rw [hh, hd] at hpf
    by_cases hc : h > d * Real.tan (alt * π / 180)
    · rw [if_pos ⟨hc, ltMin_init d⟩] at hpf
      rw [hpf]
      refine ⟨by simpa using hc, fun _ => ⟨rfl, rfl⟩, fun heq => ?_⟩
      exact absurd heq (ne_of_gt hc)
    · rw [if_neg (fun hAnd => hc hAnd.1)] at hpf
      rw [hpf]
      exact ⟨by simp only [initState]; simpa using hc,
        fun hfalse => by simp [initState] at hfalse, fun _ => rfl⟩
  · have hpf := processFeature_nonpos T pt
      (pt, (calculate3DDestinationPoint T pt 1 bearing alt).1) alt initState f
      (by rw [hh, ← hzero])
    rw [hpf]
    have hnc : ¬ (h > d * Real.tan (alt * π / 180)) := by
      rw [← hzero]; exact not_lt.mpr (le_of_lt htan)
    exact ⟨by simp only [initState]; simpa using hnc,
      fun hfalse => by simp [initState] at hfalse, fun _ => rfl⟩

/-- Witness for C1: the oracle `T0` reports a single boundary intersection
at (1,1), 10 m from the origin; a 20 m footprint at altitude 45° (threshold
10 m) blocks. -/
theorem C1_blocking_threshold_witness :
    (0:ℝ) < 45 ∧ (45:ℝ) < 90 ∧ resolvedHeight fTall = 20 ∧ (0:ℝ) ≤ 20 ∧
    polyRingsOk goodRings ∧ (0:ℝ) < 10 ∧
    (∃ res, checkShadowWith3DRay T0 (some pt0) 180 45 (some [some fTall]) = .ok res ∧
      (res.isInShadow = true ↔ (20:ℝ) > 10 * Real.tan ((45:ℝ) * π / 180)) ∧
      (res.isInShadow = true →
        res.blockerFeature = some fTall ∧ res.intersectionPoint = some (1, 1)) ∧
      ((20:ℝ) = 10 * Real.tan ((45:ℝ) * π / 180) → res.isInShadow = false)) :=
  ⟨by norm_num, by norm_num, resolvedHeight_fTall, by norm_num,
    polyRingsOk_goodRings, by norm_num,
    C1_blocking_threshold T0 pt0 (1, 1) 180 45 10 20 fTall goodRings
      (by norm_num) (by norm_num) resolvedHeight_fTall (by norm_num)
      rfl (by simp [goodRings]) polyRingsOk_goodRings rfl rfl rfl (by norm_num)⟩

lemma ltMin_some (d m : ℝ) : ltMin d (some m) = (d < m) := rfl

/-- C2: with two footprints both blocking at distances `d1` and `d2`, the
blocker is the closer one in either order, and on an exact distance tie the
first one encountered wins (strict `<` never replaces it). -/
theorem C2_closest_blocker (T : Turf) (pt p1 p2 : Pt) (bearing alt d1 d2 h1 h2 : ℝ)
    (f1 f2 : Feature) (rings1 rings2 : List (List Pt))
    (halt0 : 0 < alt) (halt90 : alt < 90)
    (hh1 : resolvedHeight f1 = h1) (hh2 : resolvedHeight f2 = h2)
    (hg1 : f1.geometry = some (.polygon rings1)) (hne1 : rings1 ≠ [])
    (hok1 : polyRingsOk rings1)
    (hg2 : f2.geometry = some (.polygon rings2)) (hne2 : rings2 ≠ [])
    (hok2 : polyRingsOk rings2)
    (hbi1 : T.booleanIntersects
      (pt, (calculate3DDestinationPoint T pt 1 bearing alt).1) rings1 = true)
    (hli1 : T.lineIntersectBoundary
      (pt, (calculate3DDestinationPoint T pt 1 bearing alt).1) rings1 = [p1])
    (hbi2 : T.booleanIntersects
      (pt, (calculate3DDestinationPoint T pt 1 bearing alt).1) rings2 = true)
    (hli2 : T.lineIntersectBoundary
      (pt, (calculate3DDestinationPoint T pt 1 bearing alt).1) rings2 = [p2])
    (hd1 : T.distanceMeters pt p1 = d1) (hd2 : T.distanceMeters pt p2 = d2)
    (hd01 : 0 < d1) (hd02 : 0 < d2)
    (hb1 : h1 > d1 * Real.tan (alt * π / 180))
    (hb2 : h2 > d2 * Real.tan (alt * π / 180)) :
    ∃ res, checkShadowWith3DRay T (some pt) bearing alt
        (some [some f1, some f2]) = .ok res ∧
      res.isInShadow = true ∧
      (d1 < d2 → res.blockerFeature = some f1 ∧ res.intersectionPoint = some p1) ∧
      (d2 < d1 → res.blockerFeature = some f2 ∧ res.intersectionPoint = some p2) ∧
      (d1 = d2 → res.blockerFeature = some f1 ∧ res.intersectionPoint = some p1) := by
  have htan1 : 0 < d1 * Real.tan (alt * π / 180) :=
    mul_pos hd01 (tan_deg_pos halt0 halt90)
  have htan2 : 0 < d2 * Real.tan (alt * π / 180) :=
    mul_pos hd02 (tan_deg_pos halt0 halt90)
  refine ⟨_, checkShadow_pos_cons T pt bearing alt (some f1) [some f2] halt0, ?_⟩
  obtain ⟨e1, e2, e3⟩ := mainShadowResult_fields T pt bearing alt [some f1, some f2]
  rw [e1, e2, e3]
  have hfold : [some f1, some f2].foldl (shadowLoopBody T pt
      (pt, (calculate3DDestinationPoint T pt 1 bearing alt).1) alt) initState =
      processFeature T pt (pt, (calculate3DDestinationPoint T pt 1 bearing alt).1) alt
        (processFeature T pt (pt, (calculate3DDestinationPoint T pt 1 bearing alt).1)
          alt initState f1) f2 := rfl
  rw [hfold]
  have hpf1 := processFeature_polygon_single T pt
    (pt, (calculate3DDestinationPoint T pt 1 bearing alt).1) alt f1 rings1 p1 initState
    hg1 hne1 hok1 hbi1 hli1 (by rw [hh1]; exact lt_trans htan1 hb1)
  rw [hh1, hd1, if_pos ⟨hb1, ltMin_init d1⟩] at hpf1
  rw [hpf1]
  have hpf2 := processFeature_polygon_single T pt
    (pt, (calculate3DDestinationPoint T pt 1 bearing alt).1) alt f2 rings2 p2
    { inShadow := true, blocker := some f1, closestIntersection := some p1,
      minDistance := some d1,
      intersectionHeight := d1 * Real.tan (alt * π / 180) }
    hg2 hne2 hok2 hbi2 hli2 (by rw [hh2]; exact lt_trans htan2 hb2)
  rw [hh2, hd2] at hpf2
  have hcond : (h2 > d2 * Real.tan (alt * π / 180) ∧ ltMin d2 (some d1)) ↔ d2 < d1 :=
    ⟨fun h => h.2, fun h => ⟨hb2, h⟩⟩
  by_cases hlt : d2 < d1
  · rw [if_pos ⟨hb2, hlt⟩] at hpf2
    rw [hpf2]
    exact ⟨rfl, fun h12 => absurd hlt (asymm h12), fun _ => ⟨rfl, rfl⟩,
      fun heq => absurd hlt (by rw [heq]; exact lt_irrefl d2)⟩
  · rw [if_neg (fun hAnd => hlt hAnd.2)] at hpf2
    rw [hpf2]
    exact ⟨rfl, fun _ => ⟨rfl, rfl⟩, fun h21 => absurd h21 hlt, fun _ => ⟨rfl, rfl⟩⟩

lemma polyRingsOk_ringsA : polyRingsOk ringsA := by
  intro r hr
  simp only [ringsA, List.mem_singleton] at hr
  subst hr
  exact ⟨by simp, rfl⟩

lemma polyRingsOk_ringsB : polyRingsOk ringsB := by
  intro r hr
  simp only [ringsB, List.mem_singleton] at hr
  subst hr
  exact ⟨by simp, rfl⟩

lemma resolvedHeight_fT1 : resolvedHeight fT1 = 100 := by
  norm_num [resolvedHeight, fT1, jsOrNum]

lemma resolvedHeight_fT2 : resolvedHeight fT2 = 100 := by
  norm_num [resolvedHeight, fT2, jsOrNum]

/-- Witness for C2: two 100 m buildings blocking at 10 m and 20 m; the one
at 10 m wins. -/
theorem C2_closest_blocker_witness :
    (0:ℝ) < 45 ∧ (45:ℝ) < 90 ∧
    (100:ℝ) > 10 * Real.tan ((45:ℝ) * π / 180) ∧
    (100:ℝ) > 20 * Real.tan ((45:ℝ) * π / 180) ∧
    (∃ res, checkShadowWith3DRay T2 (some pt0) 180 45
        (some [some fT1, some fT2]) = .ok res ∧
      res.isInShadow = true ∧
      ((10:ℝ) < 20 → res.blockerFeature = some fT1 ∧
        res.intersectionPoint = some (10, 1)) ∧
      ((20:ℝ) < 10 → res.blockerFeature = some fT2 ∧
        res.intersectionPoint = some (20, 2)) ∧
      ((10:ℝ) = 20 → res.blockerFeature = some fT1 ∧
        res.intersectionPoint = some (10, 1))) :=
  ⟨by norm_num, by norm_num, by rw [tan_45deg]; norm_num,
    by rw [tan_45deg]; norm_num,
    C2_closest_blocker T2 pt0 (10, 1) (20, 2) 180 45 10 20 100 100 fT1 fT2
      ringsA ringsB (by norm_num) (by norm_num)
      resolvedHeight_fT1 resolvedHeight_fT2
      rfl (by simp [ringsA]) polyRingsOk_ringsA
      rfl (by simp [ringsB]) polyRingsOk_ringsB
      rfl rfl rfl rfl rfl rfl (by norm_num) (by norm_num)
      (by rw [tan_45deg]; norm_num) (by rw [tan_45deg]; norm_num)⟩

lemma processIpts_blocker_inv (T : Turf) (origin : Pt) (alt hgt : ℝ)
    (feat : Feature) (hf : 0 < resolvedHeight feat) :
    ∀ (ipts : List Pt) (st : ShadowState),
      (∀ g, st.blocker = some g → 0 < resolvedHeight g) →
      ∀ g, (processIpts T origin alt hgt feat st ipts).blocker = some g →
        0 < resolvedHeight g := by
  intro ipts
  induction ipts with
  | nil => intro st hst g hg; exact hst g hg
  | cons ipt rest ih =>
    intro st hst g hg
    simp only [processIpts] at hg
    refine ih _ ?_ g hg
    intro g2 hg2
    split at hg2
    · obtain rfl : feat = g2 := by simpa using hg2
      exact hf
    · exact hst g2 hg2

lemma processPolys_blocker_inv (T : Turf) (origin : Pt) (L : Pt × Pt)
    (alt hgt : ℝ) (feat : Feature) (hf : 0 < resolvedHeight feat) :
    ∀ (polys : List (List (List Pt))) (st : ShadowState),
      (∀ g, st.blocker = some g → 0 < resolvedHeight g) →
      ∀ g, (processPolys T origin L alt hgt feat st polys).blocker = some g →
        0 < resolvedHeight g := by
  intro polys
  induction polys with
  | nil => intro st hst g hg; exact hst g hg
  | cons rings rest ih =>
    intro st hst g hg
    simp only [processPolys] at hg
    by_cases hok : polyRingsOk rings
    · rw [if_pos hok] at hg
      refine ih _ ?_ g hg
      intro g2 hg2
      by_cases hbi : T.booleanIntersects L rings = true
      · rw [if_pos hbi] at hg2
        exact processIpts_blocker_inv T origin alt hgt feat hf _ st hst g2 hg2
      · rw [if_neg hbi] at hg2
        exact hst g2 hg2
    · rw [if_neg hok] at hg
      exact hst g hg

lemma processFeature_blocker_inv (T : Turf) (origin : Pt) (L : Pt × Pt)
    (alt : ℝ) (st : ShadowState) (feat : Feature)
    (hst : ∀ g, st.blocker = some g → 0 < resolvedHeight g) :
    ∀ g, (processFeature T origin L alt st feat).blocker = some g →
      0 < resolvedHeight g := by
  intro g hg
  unfold processFeature at hg
  by_cases hh : resolvedHeight feat ≤ 0
  · rw [if_pos hh] at hg
    exact hst g hg
  · rw [if_neg hh] at hg
    have hf : 0 < resolvedHeight feat := lt_of_not_le hh
    rcases hge : feat.geometry with _ | ge
    · simp only [hge] at hg
      exact hst g hg
    · rcases ge with rings | polys | _
      · simp only [hge] at hg
        by_cases hce : rings.isEmpty = true
        · simp only [geomCoordsEmpty, hce, if_true] at hg
          exact hst g hg
        · have hce2 : rings.isEmpty = false := by
            revert hce; cases rings.isEmpty <;> simp
          simp only [geomCoordsEmpty, hce2, Bool.false_eq_true, if_false] at hg
          exact processPolys_blocker_inv T origin L alt _ feat hf _ st hst g hg
      · simp only [hge] at hg
        by_cases hce : polys.isEmpty = true
        · simp only [geomCoordsEmpty, hce, if_true] at hg
          exact hst g hg
        · have hce2 : polys.isEmpty = false := by
            revert hce; cases polys.isEmpty <;> simp
          simp only [geomCoordsEmpty, hce2, Bool.false_eq_true, if_false] at hg
          exact processPolys_blocker_inv T origin L alt _ feat hf _ st hst g hg
      · simp only [hge] at hg
        by_cases hce : geomCoordsEmpty Geom.otherGeom = true
        · simp only [hce, if_true] at hg
          exact hst g hg
        · simp only [geomCoordsEmpty] at hce
          simp only [geomCoordsEmpty, Bool.false_eq_true, if_false] at hg
          exact hst g hg

lemma foldl_blocker_inv (T : Turf) (origin : Pt) (L : Pt × Pt) (alt : ℝ) :
    ∀ (l : List (Option Feature)) (st : ShadowState),
      (∀ g, st.blocker = some g → 0 < resolvedHeight g) →
      ∀ g, (l.foldl (shadowLoopBody T origin L alt) st).blocker = some g →
        0 < resolvedHeight g := by
  intro l
  induction l with
  | nil => intro st hst g hg; exact hst g hg
  | cons a rest ih =>
    intro st hst g hg
    rw [List.foldl_cons] at hg
    refine ih _ ?_ g hg
    intro g2 hg2
    cases a with
    | none => exact hst g2 hg2
    | some f => exact processFeature_blocker_inv T origin L alt st f hst g2 hg2

lemma checkShadow_blocker_pos (T : Turf) (sp : Option Pt) (bearing alt : ℝ)
    (fs : Option (List (Option Feature))) (res : ShadowResult)
    (hres : checkShadowWith3DRay T sp bearing alt fs = .ok res) :
    ∀ g, res.blockerFeature = some g → 0 < resolvedHeight g := by
  intro g hg
  unfold checkShadowWith3DRay at hres
  by_cases halt : alt ≤ 0
  · rw [if_pos halt] at hres
    cases hres
    simp [nightResult] at hg
  · rw [if_neg halt] at hres
    cases fs with
    | none =>
      cases sp with
      | none => simp [emptyFeaturesResult] at hres
      | some pt =>
        simp only [emptyFeaturesResult] at hres
        cases hres
        simp at hg
    | some l =>
      dsimp only at hres
      by_cases hl : l.isEmpty = true
      · rw [if_pos hl] at hres
        cases sp with
        | none => simp [emptyFeaturesResult] at hres
        | some pt =>
          simp only [emptyFeaturesResult] at hres
          cases hres
          simp at hg
      · rw [if_neg hl] at hres
        cases sp with
        | none => simp at hres
        | some pt =>
          cases hres
          have e2 := (mainShadowResult_fields T pt bearing alt l).2.1
          rw [e2] at hg
          exact foldl_blocker_inv T pt
            (pt, (calculate3DDestinationPoint T pt 1 bearing alt).1) alt l initState
            (fun g2 h2 => by simp [initState] at h2) g hg

/-- C10: the occluding height is `properties.height` when truthy, else
`properties.render_height` when truthy, else 0 (an explicit height of 0
falls through); features with resolved height ≤ 0 are skipped with the loop
state untouched, before any intersection test, and the returned
`blockerFeature` always has resolved height > 0. -/
theorem C10_height_policy :
    (∀ (f : Feature) (props : FeatProps) (v : ℝ), f.properties = some props →
        props.height = some v → v ≠ 0 → resolvedHeight f = v) ∧
    (∀ (f : Feature) (props : FeatProps) (w : ℝ), f.properties = some props →
        (props.height = none ∨ props.height = some 0) →
        props.render_height = some w → w ≠ 0 → resolvedHeight f = w) ∧
    (∀ (f : Feature) (props : FeatProps), f.properties = some props →
        (props.height = none ∨ props.height = some 0) →
        (props.render_height = none ∨ props.render_height = some 0) →
        resolvedHeight f = 0) ∧
    (∀ (T : Turf) (origin : Pt) (L : Pt × Pt) (alt : ℝ) (st : ShadowState)
        (f : Feature), resolvedHeight f ≤ 0 →
        processFeature T origin L alt st f = st) ∧
    (∀ (T : Turf) (sp : Option Pt) (bearing alt : ℝ)
        (fs : Option (List (Option Feature))) (res : ShadowResult) (f : Feature),
        checkShadowWith3DRay T sp bearing alt fs = .ok res →
        res.blockerFeature = some f → 0 < resolvedHeight f) := by
  refine ⟨?_, ?_, ?_, ?_, ?_⟩
  · intro f props v hp hh hv
    simp [resolvedHeight, jsOrNum, hp, hh, hv]
  · intro f props w hp hh hr hw
    rcases hh with hh | hh <;> simp [resolvedHeight, jsOrNum, hp, hh, hr, hw]
  · intro f props hp hh hr
    rcases hh with hh | hh <;> rcases hr with hr | hr <;>
      simp [resolvedHeight, jsOrNum, hp, hh, hr]
  · intro T origin L alt st f hle
    exact processFeature_nonpos T origin L alt st f hle
  · intro T sp bearing alt fs res f hres hb
    exact checkShadow_blocker_pos T sp bearing alt fs res hres f hb

lemma checkShadow_fTall_eval :
    checkShadowWith3DRay T0 (some pt0) 180 45 (some [some fTall]) =
      .ok (mainShadowResult T0 pt0 180 45 [some fTall]) :=
  checkShadow_pos_cons T0 pt0 180 45 (some fTall) [] (by norm_num)

lemma mainShadowResult_fTall_blocker :
    (mainShadowResult T0 pt0 180 45 [some fTall]).blockerFeature = some fTall := by
  obtain ⟨e1, e2, e3⟩ := mainShadowResult_fields T0 pt0 180 45 [some fTall]
  rw [e2]
  have hpf := processFeature_polygon_single T0 pt0
    (pt0, (calculate3DDestinationPoint T0 pt0 1 180 45).1) 45 fTall goodRings (1, 1)
    initState rfl (by simp [goodRings]) polyRingsOk_goodRings rfl rfl
    (by rw [resolvedHeight_fTall]; norm_num)
  rw [resolvedHeight_fTall] at hpf
  have hd : T0.distanceMeters pt0 (1, 1) = 10 := rfl
  rw [hd] at hpf
  have hcond : (20:ℝ) > 10 * Real.tan ((45:ℝ) * π / 180) := by
    rw [tan_45deg]; norm_num
  rw [if_pos ⟨hcond, ltMin_init 10⟩] at hpf
  have hfold : [some fTall].foldl (shadowLoopBody T0 pt0
      (pt0, (calculate3DDestinationPoint T0 pt0 1 180 45).1) 45) initState =
      processFeature T0 pt0
        (pt0, (calculate3DDestinationPoint T0 pt0 1 180 45).1) 45 initState fTall := rfl
  rw [hfold, hpf]

/-- Witness for C10: explicit height wins when truthy; a 0 height falls
through to `render_height`; a feature resolving to 0 is skipped; the
blocker of a concrete blocked call has positive resolved height. -/
theorem C10_height_policy_witness :
    resolvedHeight fTall = 20 ∧
    resolvedHeight fZeroH = 7 ∧
    resolvedHeight fZeroZero = 0 ∧
    processFeature T0 pt0 (pt0, pt0) 45 initState fZeroZero = initState ∧
    0 < resolvedHeight fTall :=
  ⟨C10_height_policy.1 fTall { height := some 20, render_height := none } 20
      rfl rfl (by norm_num),
    C10_height_policy.2.1 fZeroH { height := some 0, render_height := some 7 } 7
      rfl (Or.inr rfl) rfl (by norm_num),
    C10_height_policy.2.2.1 fZeroZero { height := some 0, render_height := none }
      rfl (Or.inr rfl) (Or.inl rfl),
    C10_height_policy.2.2.2.1 T0 pt0 (pt0, pt0) 45 initState fZeroZero
      (le_of_eq (C10_height_policy.2.2.1 fZeroZero
        { height := some 0, render_height := none } rfl (Or.inr rfl) (Or.inl rfl))),
    C10_height_policy.2.2.2.2 T0 (some pt0) 180 45 (some [some fTall])
      (mainShadowResult T0 pt0 180 45 [some fTall]) fTall
      checkShadow_fTall_eval mainShadowResult_fTall_blocker⟩

lemma jsHourDecimal_invalid (d : JsDate) (h : d.valid = false) :
    jsHourDecimal d = none := by
  simp [jsHourDecimal, jsGetHours, jsGetMinutes, jsNumMap2, h]

/-- C7 counterexample: at a polar-night location (latitude 78°), the
function returns a non-null object whose hour fields are NaN — not null —
and the caller stores the NaN window instead of any fixed fallback. -/
theorem C7_counterexample :
    calculateSunriseSunset getTimesPolar (some (12, 78)) =
      some { sunriseTime := { valid := false, hours := 0, minutes := 0 },
             sunsetTime := { valid := false, hours := 0, minutes := 0 },
             sunriseHour := none, sunsetHour := none } ∧
    calculateSunriseSunset getTimesPolar (some (12, 78)) ≠ none ∧
    calculateSunriseSunsetTimes getTimesPolar (some (12, 78)) initialSunWindow =
      { sunriseHour := none, sunsetHour := none } := by
  refine ⟨rfl, by simp [calculateSunriseSunset, getTimesPolar], rfl⟩

/-- C7 (amended): `calculateSunriseSunset` returns null only for missing
coordinates; when SunCalc yields invalid sunrise/sunset dates (polar
day/night) it does not crash and does not return null — it returns an
object whose hour fields are NaN, and the caller stores that NaN window
(the null-guard fallback path is not taken). -/
theorem C7_amended (getTimes : ℝ → ℝ → SunTimes) (p : Pt)
    (hrise : (getTimes p.2 p.1).sunrise.valid = false)
    (hset : (getTimes p.2 p.1).sunset.valid = false) :
    calculateSunriseSunset getTimes none = none ∧
    ∃ r, calculateSunriseSunset getTimes (some p) = some r ∧
      r.sunriseHour = none ∧ r.sunsetHour = none ∧
      calculateSunriseSunsetTimes getTimes (some p) initialSunWindow =
        { sunriseHour := none, sunsetHour := none } := by
  have h1 := jsHourDecimal_invalid _ hrise
  have h2 := jsHourDecimal_invalid _ hset
  refine ⟨rfl, _, rfl, h1, h2, ?_⟩
  simp [calculateSunriseSunsetTimes, calculateSunriseSunset, h1, h2]

/-- Witness for C7 (amended), at the polar oracle and latitude 78°. -/
theorem C7_amended_witness :
    (getTimesPolar (78:ℝ) 12).sunrise.valid = false ∧
    (getTimesPolar (78:ℝ) 12).sunset.valid = false ∧
    (calculateSunriseSunset getTimesPolar none = none ∧
      ∃ r, calculateSunriseSunset getTimesPolar (some (12, 78)) = some r ∧
        r.sunriseHour = none ∧ r.sunsetHour = none ∧
        calculateSunriseSunsetTimes getTimesPolar (some (12, 78)) initialSunWindow =
          { sunriseHour := none, sunsetHour := none }) :=
  ⟨rfl, rfl, C7_amended getTimesPolar (12, 78) rfl rfl⟩

lemma checkSunlight_fresh (T : Turf) (fetch : Option Pt → List (Option Feature))
    (bearing alt : ℝ) (p : Pt) :
    checkSunlightForPoint T fetch bearing alt true (some p) false
      { cachedBuildings := none, cachedBuildingPoint := none } =
      { session := { cachedBuildings := some (fetch (some p)),
                     cachedBuildingPoint := some p },
        fetches := 1, usedFeatures := some (fetch (some p)),
        shadow := some (checkShadowWith3DRay T (some p) bearing alt
          (some (fetch (some p)))) } := by
  unfold checkSunlightForPoint
  rw [if_neg (by simp : ¬ ((¬(true:Bool) = true ∨ (some p : Option Pt) = none) ∧
    ¬(false:Bool) = true))]
  rfl

lemma checkSunlight_cached (T : Turf) (fetch : Option Pt → List (Option Feature))
    (bearing alt : ℝ) (p1 p2 : Pt) (bl : List (Option Feature))
    (hd : T.distanceMeters p1 p2 ≤ 10) :
    checkSunlightForPoint T fetch bearing alt true (some p2) false
      { cachedBuildings := some bl, cachedBuildingPoint := some p1 } =
      { session := { cachedBuildings := some bl, cachedBuildingPoint := some p1 },
        fetches := 0, usedFeatures := some bl,
        shadow := some (checkShadowWith3DRay T (some p2) bearing alt (some bl)) } := by
  unfold checkSunlightForPoint
  rw [if_neg (by simp : ¬ ((¬(true:Bool) = true ∨ (some p2 : Option Pt) = none) ∧
    ¬(false:Bool) = true))]
  have hsf : shouldFetchBuildings T.distanceMeters (some p1) (some p2) = false := by
    unfold shouldFetchBuildings
    exact decide_eq_false (not_lt.mpr hd)
  rw [hsf]
  rfl

/-- C9: starting from an empty cache, a first analysis at `p1` performs one
footprint fetch and caches it; a second analysis at `p2` within 10 m of
`p1` performs no fetch and reuses the cached features for the shadow
computation. -/
theorem C9_cache_reuse (T : Turf) (fetch : Option Pt → List (Option Feature))
    (bearing alt : ℝ) (p1 p2 : Pt)
    (hd : T.distanceMeters p1 p2 ≤ 10) :
    (checkSunlightForPoint T fetch bearing alt true (some p1) false
      { cachedBuildings := none, cachedBuildingPoint := none }).fetches = 1 ∧
    (checkSunlightForPoint T fetch bearing alt true (some p2) false
      (checkSunlightForPoint T fetch bearing alt true (some p1) false
        { cachedBuildings := none, cachedBuildingPoint := none }).session).fetches = 0 ∧
    (checkSunlightForPoint T fetch bearing alt true (some p2) false
      (checkSunlightForPoint T fetch bearing alt true (some p1) false
        { cachedBuildings := none, cachedBuildingPoint := none }).session).usedFeatures =
      some (fetch (some p1)) ∧
    (checkSunlightForPoint T fetch bearing alt true (some p2) false
      (checkSunlightForPoint T fetch bearing alt true (some p1) false
        { cachedBuildings := none, cachedBuildingPoint := none }).session).shadow =
      some (checkShadowWith3DRay T (some p2) bearing alt (some (fetch (some p1)))) := by
  rw [checkSunlight_fresh T fetch bearing alt p1]
  rw [checkSunlight_cached T fetch bearing alt p1 p2 (fetch (some p1)) hd]
  exact ⟨rfl, rfl, rfl, rfl⟩

/-- Witness for C9: constant-distance oracle (10 m ≤ 10 m), empty provider. -/
theorem C9_cache_reuse_witness :
    T0.distanceMeters pt0 (1, 1) ≤ 10 ∧
    ((checkSunlightForPoint T0 fetchNone 180 45 true (some pt0) false
      { cachedBuildings := none, cachedBuildingPoint := none }).fetches = 1 ∧
    (checkSunlightForPoint T0 fetchNone 180 45 true (some (1, 1)) false
      (checkSunlightForPoint T0 fetchNone 180 45 true (some pt0) false
        { cachedBuildings := none, cachedBuildingPoint := none }).session).fetches = 0 ∧
    (checkSunlightForPoint T0 fetchNone 180 45 true (some (1, 1)) false
      (checkSunlightForPoint T0 fetchNone 180 45 true (some pt0) false
        { cachedBuildings := none, cachedBuildingPoint := none }).session).usedFeatures =
      some (fetchNone (some pt0)) ∧
    (checkSunlightForPoint T0 fetchNone 180 45 true (some (1, 1)) false
      (checkSunlightForPoint T0 fetchNone 180 45 true (some pt0) false
        { cachedBuildings := none, cachedBuildingPoint := none }).session).shadow =
      some (checkShadowWith3DRay T0 (some (1, 1)) 180 45
        (some (fetchNone (some pt0))))) :=
  ⟨by norm_num [T0], C9_cache_reuse T0 fetchNone 180 45 pt0 (1, 1) (by norm_num [T0])⟩

/-- A feature with Polygon geometry containing a malformed ring makes
`turf.polygon` throw during validation, before any intersection test: the
per-feature catch leaves the loop state exactly unchanged. -/
lemma processFeature_badPolygonRing (T : Turf) (origin : Pt) (L : Pt × Pt)
    (alt : ℝ) (st : ShadowState) (f : Feature)
    (rings : List (List Pt)) (r : List Pt)
    (hg : f.geometry = some (.polygon rings)) (hr : r ∈ rings)
    (hbad : ¬ ringOk r) :
    processFeature T origin L alt st f = st := by
  unfold processFeature
  by_cases hh : resolvedHeight f ≤ 0
  · rw [if_pos hh]
  · rw [if_neg hh]
    have hne : rings.isEmpty = false := by
      cases rings with
      | nil => cases hr
      | cons a t => rfl
    simp only [hg, geomCoordsEmpty, hne, Bool.false_eq_true, if_false]
    unfold processPolys
    rw [if_neg (fun hok => hbad (hok r hr))]

lemma foldl_skip_mid (T : Turf) (origin : Pt) (L : Pt × Pt) (alt : ℝ)
    (l1 l2 : List (Option Feature)) (fBad : Feature)
    (hskip : ∀ st, processFeature T origin L alt st fBad = st) (st : ShadowState) :
    (l1 ++ some fBad :: l2).foldl (shadowLoopBody T origin L alt) st =
      (l1 ++ l2).foldl (shadowLoopBody T origin L alt) st := by
  rw [List.foldl_append, List.foldl_append, List.foldl_cons]
  congr 1
  exact hskip _

lemma checkShadow_pos_ne (T : Turf) (pt : Pt) (bearing alt : ℝ)
    (l : List (Option Feature)) (halt : 0 < alt) (hne : l ≠ []) :
    checkShadowWith3DRay T (some pt) bearing alt (some l) =
      .ok (mainShadowResult T pt bearing alt l) := by
  cases l with
  | nil => exact absurd rfl hne
  | cons a t => exact checkShadow_pos_cons T pt bearing alt a t halt

lemma checkShadow_pos_nil (T : Turf) (pt : Pt) (bearing alt : ℝ) (halt : 0 < alt) :
    checkShadowWith3DRay T (some pt) bearing alt (some []) =
      .ok { isInShadow := false, blockerFeature := none, intersectionPoint := none,
            raySegments := some (createRay3DSegments pt
              (calculate3DDestinationPoint T pt 0.5 bearing alt).1 0
              (calculate3DDestinationPoint T pt 0.5 bearing alt).2 20),
            rayEnd := some (calculate3DDestinationPoint T pt 0.5 bearing alt).1 } := by
  unfold checkShadowWith3DRay
  rw [if_neg (not_le.mpr halt)]
  rfl

/-- C8 (amended): a footprint whose *Polygon* geometry contains a malformed
ring (fewer than 4 points, or non-closed) is skipped without throwing and
without affecting `isInShadow`, `blockerFeature` or `intersectionPoint`,
wherever it sits in the collection.  (For a MultiPolygon footprint, a valid
earlier sub-polygon may already have recorded a blocking intersection
before the malformed ring throws; that partial effect is kept.) -/
theorem C8_amended (T : Turf) (pt : Pt) (bearing alt : ℝ)
    (l1 l2 : List (Option Feature)) (fBad : Feature)
    (rings : List (List Pt)) (r : List Pt)
    (halt : 0 < alt) (hg : fBad.geometry = some (.polygon rings))
    (hr : r ∈ rings) (hbad : ¬ ringOk r) :
    ∃ res resW,
      checkShadowWith3DRay T (some pt) bearing alt
        (some (l1 ++ some fBad :: l2)) = .ok res ∧
      checkShadowWith3DRay T (some pt) bearing alt (some (l1 ++ l2)) = .ok resW ∧
      res.isInShadow = resW.isInShadow ∧
      res.blockerFeature = resW.blockerFeature ∧
      res.intersectionPoint = resW.intersectionPoint := by
  have hskip : ∀ (L : Pt × Pt) (st : ShadowState),
      processFeature T pt L alt st fBad = st := fun L st =>
    processFeature_badPolygonRing T pt L alt st fBad rings r hg hr hbad
  have hne1 : l1 ++ some fBad :: l2 ≠ [] := by simp
  by_cases hem : l1 ++ l2 = []
  · obtain ⟨h1, h2⟩ := List.append_eq_nil.mp hem
    subst h1; subst h2
    refine ⟨_, _, checkShadow_pos_ne T pt bearing alt _ halt hne1,
      checkShadow_pos_nil T pt bearing alt halt, ?_, ?_, ?_⟩ <;>
    · obtain ⟨e1, e2, e3⟩ := mainShadowResult_fields T pt bearing alt
        ([] ++ some fBad :: [])
      have hfold : (([] ++ some fBad :: []) : List (Option Feature)).foldl
          (shadowLoopBody T pt
            (pt, (calculate3DDestinationPoint T pt 1 bearing alt).1) alt) initState =
          initState := by
        simp only [List.nil_append, List.foldl_cons, List.foldl_nil]
        exact hskip _ _
      first
      | rw [e1, hfold]; rfl
      | rw [e2, hfold]; rfl
      | rw [e3, hfold]; rfl
  · have heq : mainShadowResult T pt bearing alt (l1 ++ some fBad :: l2) =
        mainShadowResult T pt bearing alt (l1 ++ l2) := by
      simp only [mainShadowResult]
      rw [foldl_skip_mid T pt _ alt l1 l2 fBad (hskip _) initState]
    exact ⟨_, _, checkShadow_pos_ne T pt bearing alt _ halt hne1,
      checkShadow_pos_ne T pt bearing alt _ halt hem,
      by rw [heq], by rw [heq], by rw [heq]⟩

lemma not_ringOk_bad : ¬ ringOk [((5:ℝ), (5:ℝ)), (6, 6)] := by
  intro h
  have h4 := h.1
  simp at h4

/-- Witness for C8 (amended): the malformed 2-point Polygon footprint
`fBadPoly` is skipped next to the valid footprint `fGood`. -/
theorem C8_amended_witness :
    (0:ℝ) < 45 ∧
    fBadPoly.geometry = some (.polygon badRings) ∧
    ([((5:ℝ), (5:ℝ)), (6, 6)] ∈ badRings) ∧
    ¬ ringOk [((5:ℝ), (5:ℝ)), (6, 6)] ∧
    (∃ res resW,
      checkShadowWith3DRay T0 (some pt0) 180 45
        (some ([] ++ some fBadPoly :: [some fGood])) = .ok res ∧
      checkShadowWith3DRay T0 (some pt0) 180 45
        (some ([] ++ [some fGood])) = .ok resW ∧
      res.isInShadow = resW.isInShadow ∧
      res.blockerFeature = resW.blockerFeature ∧
      res.intersectionPoint = resW.intersectionPoint) :=
  ⟨by norm_num, rfl, by simp [badRings], not_ringOk_bad,
    C8_amended T0 pt0 180 45 [] [some fGood] fBadPoly badRings
      [((5:ℝ), (5:ℝ)), (6, 6)] (by norm_num) rfl (by simp [badRings])
      not_ringOk_bad⟩

/-- Evaluation of a feature whose MultiPolygon geometry is a valid
sub-polygon followed by an invalid one: the valid part is fully processed
before `turf.polygon` throws on the second. -/
lemma processFeature_multi_goodbad (T : Turf) (origin : Pt) (L : Pt × Pt)
    (alt : ℝ) (f : Feature) (g1 bad : List (List Pt)) (p : Pt) (st : ShadowState)
    (hg : f.geometry = some (.multiPolygon [g1, bad]))
    (hok : polyRingsOk g1) (hbadp : ¬ polyRingsOk bad)
    (hbi : T.booleanIntersects L g1 = true)
    (hli : T.lineIntersectBoundary L g1 = [p])
    (hh : 0 < resolvedHeight f) :
    processFeature T origin L alt st f =
      (if resolvedHeight f > T.distanceMeters origin p * Real.tan (alt * π / 180) ∧
          ltMin (T.distanceMeters origin p) st.minDistance then
        { inShadow := true, blocker := some f, closestIntersection := some p,
          minDistance := some (T.distanceMeters origin p),
          intersectionHeight := T.distanceMeters origin p * Real.tan (alt * π / 180) }
      else st) := by
  unfold processFeature
  rw [if_neg (not_le.mpr hh)]
  simp only [hg, geomCoordsEmpty, List.isEmpty_cons, Bool.false_eq_true, if_false]
  unfold processPolys
  rw [if_pos hok, hbi, hli]
  simp only [if_true]
  simp only [processIpts, processPolys]
  rw [if_neg hbadp]

/-- C8 counterexample: `fBadMP` has a malformed ring (2 points) inside its
MultiPolygon, next to the valid footprint `fGood`; with `fBadMP` present
the point is shadowed with `fBadMP` as blocker, with it removed the point
is sunlit — the three result fields are *not* those of the reduced call. -/
theorem C8_counterexample :
    ¬ ringOk [((5:ℝ), (5:ℝ)), (6, 6)] ∧
    (∃ res, checkShadowWith3DRay T0 (some pt0) 180 45
        (some [some fBadMP, some fGood]) = .ok res ∧
      res.isInShadow = true ∧ res.blockerFeature = some fBadMP) ∧
    (∃ resW, checkShadowWith3DRay T0 (some pt0) 180 45
        (some [some fGood]) = .ok resW ∧
      resW.isInShadow = false ∧ resW.blockerFeature = none) := by
  have hd : T0.distanceMeters pt0 (1, 1) = 10 := rfl
  have hgt20 : (20:ℝ) > 10 * Real.tan ((45:ℝ) * π / 180) := by
    rw [tan_45deg]; norm_num
  have hngt5 : ¬ ((5:ℝ) > 10 * Real.tan ((45:ℝ) * π / 180) ∧
      ltMin 10 (some (10:ℝ))) := by
    rintro ⟨h5, -⟩
    rw [tan_45deg] at h5
    norm_num at h5
  have hngt5i : ¬ ((5:ℝ) > 10 * Real.tan ((45:ℝ) * π / 180) ∧
      ltMin 10 initState.minDistance) := by
    rintro ⟨h5, -⟩
    rw [tan_45deg] at h5
    norm_num at h5
  refine ⟨not_ringOk_bad,
    ⟨_, checkShadow_pos_cons T0 pt0 180 45 (some fBadMP) [some fGood]
      (by norm_num), ?_⟩,
    ⟨_, checkShadow_pos_cons T0 pt0 180 45 (some fGood) [] (by norm_num), ?_⟩⟩
  · obtain ⟨e1, e2, e3⟩ :=
      mainShadowResult_fields T0 pt0 180 45 [some fBadMP, some fGood]
    have h1 := processFeature_multi_goodbad T0 pt0
      (pt0, (calculate3DDestinationPoint T0 pt0 1 180 45).1) 45 fBadMP
      goodRings badRings (1, 1) initState rfl polyRingsOk_goodRings
      not_polyRingsOk_badRings rfl rfl
      (by rw [resolvedHeight_fBadMP]; norm_num)
    rw [resolvedHeight_fBadMP, hd, if_pos ⟨hgt20, ltMin_init 10⟩] at h1
    have h2 := processFeature_polygon_single T0 pt0
      (pt0, (calculate3DDestinationPoint T0 pt0 1 180 45).1) 45 fGood
      goodRings2 (1, 1)
      { inShadow := true, blocker := some fBadMP, closestIntersection := some (1, 1),
        minDistance := some 10,
        intersectionHeight := 10 * Real.tan ((45:ℝ) * π / 180) }
      rfl (by simp [goodRings2]) polyRingsOk_goodRings2 rfl rfl
      (by rw [resolvedHeight_fGood]; norm_num)
    rw [resolvedHeight_fGood, hd, if_neg hngt5] at h2
    have hfold : [some fBadMP, some fGood].foldl (shadowLoopBody T0 pt0
        (pt0, (calculate3DDestinationPoint T0 pt0 1 180 45).1) 45) initState =
        { inShadow := true, blocker := some fBadMP,
          closestIntersection := some (1, 1), minDistance := some 10,
          intersectionHeight := 10 * Real.tan ((45:ℝ) * π / 180) } := by
      simp only [List.foldl_cons, List.foldl_nil]
      show processFeature T0 pt0 _ 45 (processFeature T0 pt0 _ 45 initState fBadMP)
        fGood = _
      rw [h1, h2]
    rw [e1, e2, hfold]
    exact ⟨rfl, rfl⟩
  · obtain ⟨e1, e2, e3⟩ := mainShadowResult_fields T0 pt0 180 45 [some fGood]
    have h2 := processFeature_polygon_single T0 pt0
      (pt0, (calculate3DDestinationPoint T0 pt0 1 180 45).1) 45 fGood
      goodRings2 (1, 1) initState
      rfl (by simp [goodRings2]) polyRingsOk_goodRings2 rfl rfl
      (by rw [resolvedHeight_fGood]; norm_num)
    rw [resolvedHeight_fGood, hd, if_neg hngt5i] at h2
    have hfold : [some fGood].foldl (shadowLoopBody T0 pt0
        (pt0, (calculate3DDestinationPoint T0 pt0 1 180 45).1) 45) initState =
        initState := by
      simp only [List.foldl_cons, List.foldl_nil]
      exact h2
    rw [e1, e2, hfold]
    exact ⟨rfl, rfl⟩
